import Mathlib

/-!
Verification development for the ballistic trajectory simulator.

The repository contains two variants of the physics core:
* `simulateur_balistique_pygame.py` — a self-contained `Ballistics` class with
  a force model (`acceleration`), an Euler stepper (`step_euler`), an RK4
  stepper (`step_rk4`) and a frame `update`;
* `src/physics.py` + `src/projectile.py` — a batch trajectory evaluator
  `calculate_trajectory_point` (closed-form parabola without drag, fixed-step
  integration with drag), auxiliary closed-form queries, and a `Projectile`
  entity driven from them.

Python floats are embedded as real numbers; `math.sqrt`, `math.hypot`,
`math.sin`, `math.cos` become `Real.sqrt`, `Real.sin`, `Real.cos`.
-/

namespace BallisticSim

/-! ### Constants from `src/settings.py` -/

/-- `GRAVITY = 9.81` (src/settings.py). -/
def GRAVITY : ℝ := 9.81

/-- `AIR_DENSITY = 1.225` (src/settings.py). -/
def AIR_DENSITY : ℝ := 1.225

/-- `DRAG_COEFFICIENT = 0.47` (src/settings.py). -/
def DRAG_COEFFICIENT : ℝ := 0.47

/-- `SCREEN_WIDTH = 1400` (src/settings.py). -/
def SCREEN_WIDTH : ℝ := 1400

/-- `SCREEN_HEIGHT = 700` (src/settings.py). -/
def SCREEN_HEIGHT : ℝ := 700

/-- `SIM_AREA_X = 320` (src/settings.py). -/
def SIM_AREA_X : ℝ := 320

/-- `SIM_AREA_Y = 20` (src/settings.py). -/
def SIM_AREA_Y : ℝ := 20

/-- `SIM_AREA_WIDTH = SCREEN_WIDTH - SIM_AREA_X - 20` (src/settings.py). -/
def SIM_AREA_WIDTH : ℝ := SCREEN_WIDTH - SIM_AREA_X - 20

/-- `SIM_AREA_HEIGHT = SCREEN_HEIGHT - 40` (src/settings.py). -/
def SIM_AREA_HEIGHT : ℝ := SCREEN_HEIGHT - 40

/-! ### `Ballistics` (simulateur_balistique_pygame.py) -/

/-- The `Params` dataclass of `simulateur_balistique_pygame.py`. -/
structure Params where
  v0 : ℝ
  angle_deg : ℝ
  mass : ℝ
  Cd : ℝ
  area : ℝ
  rho : ℝ
  g : ℝ
  wind_x : ℝ
  wind_y : ℝ
  dt : ℝ
  linear_drag : Bool
  integrator_euler : Bool

/-- The `State` dataclass of `simulateur_balistique_pygame.py`. -/
structure State where
  x : ℝ
  y : ℝ
  vx : ℝ
  vy : ℝ

/-- `Ballistics.acceleration` (simulateur_balistique_pygame.py, lines 173-200):
relative velocity to the air, gravity force `(0, -g*mass)`, linear or
quadratic drag force, net acceleration `(F_g + F_d) / mass` per component.
`math.hypot(a, b)` is embedded as `Real.sqrt (a^2 + b^2)`. -/
noncomputable def acceleration (p : Params) (vx vy : ℝ) : ℝ × ℝ :=
  let vrel_x := vx - p.wind_x
  let vrel_y := vy - p.wind_y
  let vrel := Real.sqrt (vrel_x ^ 2 + vrel_y ^ 2)
  let Fx_g : ℝ := 0
  let Fy_g : ℝ := -p.g * p.mass
  let Fd : ℝ × ℝ :=
    if p.linear_drag then
      let k_eff := 0.5 * p.rho * p.Cd * p.area
      (-k_eff * vrel_x, -k_eff * vrel_y)
    else
      if vrel ≠ 0 then
        let coeff := 0.5 * p.rho * p.Cd * p.area * vrel
        (-coeff * vrel_x, -coeff * vrel_y)
      else
        (0, 0)
  ((Fx_g + Fd.1) / p.mass, (Fy_g + Fd.2) / p.mass)

/-- `Ballistics.step_euler` (simulateur_balistique_pygame.py, lines 202-209):
the position is advanced with the current velocity, then the velocity is
advanced with the acceleration computed from the current velocity. -/
noncomputable def step_euler (p : Params) (s : State) : State :=
  let a := acceleration p s.vx s.vy
  { x := s.x + s.vx * p.dt
    y := s.y + s.vy * p.dt
    vx := s.vx + a.1 * p.dt
    vy := s.vy + a.2 * p.dt }

/-- Modelled from the spec: the semi-implicit (symplectic) Euler step the
specification describes — velocity updated first, position then advanced with
the **new** velocity.  Written from the spec's words for comparison with
`step_euler` as the code has it. -/
noncomputable def step_euler_semi_implicit_spec (p : Params) (s : State) : State :=
  let a := acceleration p s.vx s.vy
  let vx := s.vx + a.1 * p.dt
  let vy := s.vy + a.2 * p.dt
  { x := s.x + vx * p.dt
    y := s.y + vy * p.dt
    vx := vx
    vy := vy }

/-- The derivative function `deriv` inside `Ballistics.step_rk4`
(simulateur_balistique_pygame.py, lines 215-217): `(vx, vy, ax, ay)`. -/
noncomputable def deriv (p : Params) (x y vx vy : ℝ) : ℝ × ℝ × ℝ × ℝ :=
  let a := acceleration p vx vy
  (vx, vy, a.1, a.2)

/-- `Ballistics.step_rk4` (simulateur_balistique_pygame.py, lines 211-244). -/
noncomputable def step_rk4 (p : Params) (s : State) : State :=
  let dt := p.dt
  let k1 := deriv p s.x s.y s.vx s.vy
  let k2 := deriv p (s.x + 0.5 * dt * k1.1) (s.y + 0.5 * dt * k1.2.1)
    (s.vx + 0.5 * dt * k1.2.2.1) (s.vy + 0.5 * dt * k1.2.2.2)
  let k3 := deriv p (s.x + 0.5 * dt * k2.1) (s.y + 0.5 * dt * k2.2.1)
    (s.vx + 0.5 * dt * k2.2.2.1) (s.vy + 0.5 * dt * k2.2.2.2)
  let k4 := deriv p (s.x + dt * k3.1) (s.y + dt * k3.2.1)
    (s.vx + dt * k3.2.2.1) (s.vy + dt * k3.2.2.2)
  { x := s.x + dt * (k1.1 + 2 * k2.1 + 2 * k3.1 + k4.1) / 6
    y := s.y + dt * (k1.2.1 + 2 * k2.2.1 + 2 * k3.2.1 + k4.2.1) / 6
    vx := s.vx + dt * (k1.2.2.1 + 2 * k2.2.2.1 + 2 * k3.2.2.1 + k4.2.2.1) / 6
    vy := s.vy + dt * (k1.2.2.2 + 2 * k2.2.2.2 + 2 * k3.2.2.2 + k4.2.2.2) / 6 }

/-! ### `src/physics.py` -/

/-- The kinematic quadruple `(x, y, vx, vy)` carried through the integration
loop of `calculate_trajectory_point`. -/
structure TrajState where
  x : ℝ
  y : ℝ
  vx : ℝ
  vy : ℝ

/-- `max_speed = 10000` (src/physics.py, line 54). -/
def max_speed : ℝ := 10000

/-- `max_accel = 1000` (src/physics.py, line 81). -/
def max_accel : ℝ := 1000

/-- Lines 70-85 of src/physics.py: the drag acceleration pair
`(drag_ax, drag_ay)` computed from the relative velocity, with each component
clamped to `[-max_accel, max_accel]`; zero when the relative speed is zero. -/
noncomputable def dragAccel (drag_constant mass vx_rel vy_rel : ℝ) : ℝ × ℝ :=
  let speed_sq := vx_rel ^ 2 + vy_rel ^ 2
  let speed_rel := Real.sqrt speed_sq
  if speed_rel > 0 then
    let drag_force := drag_constant * speed_rel ^ 2
    let drag_ax := -drag_force * (vx_rel / speed_rel) / mass
    let drag_ay := -drag_force * (vy_rel / speed_rel) / mass
    (max (-max_accel) (min max_accel drag_ax),
     max (-max_accel) (min max_accel drag_ay))
  else
    (0, 0)

/-- One iteration of the `while current_time < t` loop of
`calculate_trajectory_point` (src/physics.py, lines 56-95).  Returns the
state after the iteration and `true` when the `break` on
`speed_sq > max_speed**2` fired (in which case the state carries the clamped
velocities and the unchanged position, exactly what the Python locals hold at
the `break`). -/
noncomputable def trajLoopBody (drag_constant mass gravity vx_wind vy_wind dt : ℝ)
    (s : TrajState) : TrajState × Bool :=
  let vx := max (-max_speed) (min max_speed s.vx)
  let vy := max (-max_speed) (min max_speed s.vy)
  let vx_rel := vx - vx_wind
  let vy_rel := vy - vy_wind
  let speed_sq := vx_rel ^ 2 + vy_rel ^ 2
  if speed_sq > max_speed ^ 2 then
    (⟨s.x, s.y, vx, vy⟩, true)
  else
    let a := dragAccel drag_constant mass vx_rel vy_rel
    let vx' := vx + a.1 * dt
    let vy' := vy + (gravity + a.2) * dt
    (⟨s.x + vx' * dt, s.y + vy' * dt, vx', vy'⟩, false)

/-- The integration loop of `calculate_trajectory_point`, iterated a given
number of times; an iteration signalling `break` stops the loop with that
iteration's state. -/
noncomputable def trajLoop (drag_constant mass gravity vx_wind vy_wind dt : ℝ) :
    ℕ → TrajState → TrajState
  | 0, s => s
  | n + 1, s =>
    let r := trajLoopBody drag_constant mass gravity vx_wind vy_wind dt s
    if r.2 then r.1 else trajLoop drag_constant mass gravity vx_wind vy_wind dt n r.1

/-- `calculate_trajectory_point` (src/physics.py, lines 4-97).  With
`radius == 0` the closed-form parabola; otherwise fixed-step integration with
`dt = 0.01` from `t = 0`.  In real arithmetic `current_time` after `k`
iterations is exactly `k * dt`, so `while current_time < t` runs
`⌈t / dt⌉` iterations (`Nat.ceil`, hence `0` for `t ≤ 0`).
`math.radians(d)` is `d * π / 180`. -/
noncomputable def calculate_trajectory_point (x0 y0 v0 angle t mass radius
    gravity air_density wind_speed wind_direction : ℝ) : ℝ × ℝ × ℝ × ℝ :=
  if radius = 0 then
    (x0 + v0 * Real.cos angle * t,
     y0 - v0 * Real.sin angle * t + 0.5 * gravity * t ^ 2,
     v0 * Real.cos angle,
     -v0 * Real.sin angle + gravity * t)
  else
    let dt : ℝ := 0.01
    let wind_angle_rad := wind_direction * (Real.pi / 180)
    let vx_wind := wind_speed * Real.cos wind_angle_rad
    let vy_wind := -wind_speed * Real.sin wind_angle_rad
    let cross_section_area := Real.pi * radius ^ 2
    let drag_constant := 0.5 * air_density * DRAG_COEFFICIENT * cross_section_area
    let s := trajLoop drag_constant mass gravity vx_wind vy_wind dt
      (Nat.ceil (t / dt))
      ⟨x0, y0, v0 * Real.cos angle, -v0 * Real.sin angle⟩
    (s.x, s.y, s.vx, s.vy)

/-- Modelled from the spec: the loop body the specification describes for the
drag integration — an **explicit** per-axis update, the position advanced
with the velocity from *before* this iteration's velocity update.  Written
from the spec's words for comparison with `trajLoopBody` as the code has it. -/
noncomputable def trajLoopBodyExplicitSpec (drag_constant mass gravity vx_wind vy_wind dt : ℝ)
    (s : TrajState) : TrajState × Bool :=
  let vx := max (-max_speed) (min max_speed s.vx)
  let vy := max (-max_speed) (min max_speed s.vy)
  let vx_rel := vx - vx_wind
  let vy_rel := vy - vy_wind
  let speed_sq := vx_rel ^ 2 + vy_rel ^ 2
  if speed_sq > max_speed ^ 2 then
    (⟨s.x, s.y, vx, vy⟩, true)
  else
    let a := dragAccel drag_constant mass vx_rel vy_rel
    let vx' := vx + a.1 * dt
    let vy' := vy + (gravity + a.2) * dt
    (⟨s.x + vx * dt, s.y + vy * dt, vx', vy'⟩, false)

/-- Modelled from the spec: the drag path of `calculate_trajectory_point` as
the specification describes it, using the explicit-update loop body. -/
noncomputable def trajLoopExplicitSpec (drag_constant mass gravity vx_wind vy_wind dt : ℝ) :
    ℕ → TrajState → TrajState
  | 0, s => s
  | n + 1, s =>
    let r := trajLoopBodyExplicitSpec drag_constant mass gravity vx_wind vy_wind dt s
    if r.2 then r.1 else
      trajLoopExplicitSpec drag_constant mass gravity vx_wind vy_wind dt n r.1

/-- Modelled from the spec: `calculate_trajectory_point` with the explicit
(position advanced before the velocity update takes effect) internal step the
specification claims, for comparison with the source's version. -/
noncomputable def calculate_trajectory_point_explicit_spec (x0 y0 v0 angle t mass radius
    gravity air_density wind_speed wind_direction : ℝ) : ℝ × ℝ × ℝ × ℝ :=
  if radius = 0 then
    (x0 + v0 * Real.cos angle * t,
     y0 - v0 * Real.sin angle * t + 0.5 * gravity * t ^ 2,
     v0 * Real.cos angle,
     -v0 * Real.sin angle + gravity * t)
  else
    let dt : ℝ := 0.01
    let wind_angle_rad := wind_direction * (Real.pi / 180)
    let vx_wind := wind_speed * Real.cos wind_angle_rad
    let vy_wind := -wind_speed * Real.sin wind_angle_rad
    let cross_section_area := Real.pi * radius ^ 2
    let drag_constant := 0.5 * air_density * DRAG_COEFFICIENT * cross_section_area
    let s := trajLoopExplicitSpec drag_constant mass gravity vx_wind vy_wind dt
      (Nat.ceil (t / dt))
      ⟨x0, y0, v0 * Real.cos angle, -v0 * Real.sin angle⟩
    (s.x, s.y, s.vx, s.vy)

/-- `calculate_range` (src/physics.py, lines 99-101). -/
noncomputable def calculate_range (v0 angle height : ℝ) : ℝ :=
  (v0 * v0 * Real.sin (2 * angle)) / GRAVITY + height

/-- `calculate_max_height` (src/physics.py, lines 103-106). -/
noncomputable def calculate_max_height (v0 angle y0 : ℝ) : ℝ :=
  let vy0 := v0 * Real.sin angle
  y0 - (vy0 * vy0) / (2 * GRAVITY)

/-- `calculate_flight_time` (src/physics.py, lines 108-114). -/
noncomputable def calculate_flight_time (v0 angle y0 : ℝ) : ℝ :=
  let vy0 := -v0 * Real.sin angle
  let discriminant := vy0 * vy0 + 2 * GRAVITY * y0
  if discriminant < 0 then 0
  else (-vy0 + Real.sqrt discriminant) / GRAVITY

/-! ### `src/projectile.py` -/

/-- The fields of the `Projectile` class that `update` reads or writes
(src/projectile.py).  Colors and selection are rendering concerns and are
omitted. -/
structure Projectile where
  x0 : ℝ
  y0 : ℝ
  v0 : ℝ
  angle : ℝ
  mass : ℝ
  radius : ℝ
  x : ℝ
  y : ℝ
  vx : ℝ
  vy : ℝ
  time : ℝ
  trajectory : List (ℝ × ℝ)
  active : Bool
  launched : Bool
  paused : Bool

/-- `Projectile.update` (src/projectile.py, lines 45-86).  `bad` abstracts the
IEEE test `math.isnan(v) or math.isinf(v)`, which real arithmetic cannot
express; every value of a terminating real computation is finite, so the
faithful real-semantics instantiation is `fun v => false`, but the theorems
below hold for an arbitrary oracle.  Control flow mirrors the source: early
return unless active, launched and not paused; `time += dt`; the trajectory
point recomputed from the launch parameters at the new time; on a bad
coordinate the projectile is deactivated with state otherwise untouched;
otherwise state and trajectory are updated and the bounds check may
deactivate. -/
noncomputable def Projectile.update (bad : ℝ → Bool) (p : Projectile)
    (dt gravity air_density wind_speed wind_direction : ℝ) : Projectile :=
  if p.active = false ∨ p.launched = false ∨ p.paused = true then p
  else
    let time' := p.time + dt
    let r := calculate_trajectory_point p.x0 p.y0 p.v0 p.angle time'
      p.mass p.radius gravity air_density wind_speed wind_direction
    if bad r.1 = true ∨ bad r.2.1 = true then
      { p with time := time', active := false }
    else
      let p1 : Projectile :=
        { p with
          time := time'
          x := r.1
          y := r.2.1
          vx := r.2.2.1
          vy := r.2.2.2
          trajectory := p.trajectory ++ [(r.1, r.2.1)] }
      if p1.y ≥ SIM_AREA_Y + SIM_AREA_HEIGHT - 10 ∨ p1.x ≥ SIM_AREA_X + SIM_AREA_WIDTH then
        { p1 with active := false }
      else p1

/-! ### Theorems -/

/-- C1: for every velocity `(vx, vy)`, wind `(wx, wy)` and parameters with
`mass > 0` (quadratic drag mode), the net acceleration of
`Ballistics.acceleration` equals (gravity force + drag force) / mass, where
`v_rel = velocity - wind`, the drag force is
`-(0.5 * rho * Cd * A * |v_rel|) * v_rel` — the scalar `0.5*rho*Cd*A*|v_rel|`
times the vector `v_rel`, antiparallel to it — and it is exactly zero when
`|v_rel| = 0` (the formula's factor `|v_rel|` vanishes; the code takes the
division-free branch). -/
theorem acceleration_net_gravity_drag (p : Params) (vx vy : ℝ)
    (hm : 0 < p.mass) (hq : p.linear_drag = false) :
    acceleration p vx vy =
      ((0 + -(0.5 * p.rho * p.Cd * p.area *
          Real.sqrt ((vx - p.wind_x) ^ 2 + (vy - p.wind_y) ^ 2)) * (vx - p.wind_x)) / p.mass,
       (-p.g * p.mass + -(0.5 * p.rho * p.Cd * p.area *
          Real.sqrt ((vx - p.wind_x) ^ 2 + (vy - p.wind_y) ^ 2)) * (vy - p.wind_y)) / p.mass) := by
  unfold acceleration
  rw [hq]
  by_cases h : Real.sqrt ((vx - p.wind_x) ^ 2 + (vy - p.wind_y) ^ 2) = 0
  · simp only [Bool.false_eq_true, if_false, h, ne_eq, not_true_eq_false, if_neg,
      not_false_eq_true, if_true]
    simp [h]
  · simp [h]

/-- Witness for C1 at `mass = 1`, wind `(0, 0)`, velocity `(3, 4)`. -/
theorem acceleration_net_gravity_drag_witness :
    acceleration ⟨0, 0, 1, 1, 1, 1, 1, 0, 0, 1, false, false⟩ 3 4 =
      ((0 + -(0.5 * 1 * 1 * 1 *
          Real.sqrt (((3 : ℝ) - 0) ^ 2 + ((4 : ℝ) - 0) ^ 2)) * (3 - 0)) / 1,
       (-1 * 1 + -(0.5 * 1 * 1 * 1 *
          Real.sqrt (((3 : ℝ) - 0) ^ 2 + ((4 : ℝ) - 0) ^ 2)) * (4 - 0)) / 1) :=
  acceleration_net_gravity_drag ⟨0, 0, 1, 1, 1, 1, 1, 0, 0, 1, false, false⟩ 3 4
    (by norm_num) rfl

/-- C2: with `radius = 0`, `calculate_trajectory_point` returns the
closed-form parabola `x = x0 + v0·cos(angle)·t`,
`y = y0 − v0·sin(angle)·t + 0.5·gravity·t²`, with velocities
`vx = v0·cos(angle)` and `vy = −v0·sin(angle) + gravity·t`. -/
theorem trajectory_point_no_drag_closed_form
    (x0 y0 v0 angle t mass radius gravity air_density wind_speed wind_direction : ℝ)
    (h : radius = 0) :
    calculate_trajectory_point x0 y0 v0 angle t mass radius gravity air_density
      wind_speed wind_direction =
      (x0 + v0 * Real.cos angle * t,
       y0 - v0 * Real.sin angle * t + 0.5 * gravity * t ^ 2,
       v0 * Real.cos angle,
       -v0 * Real.sin angle + gravity * t) := by
  unfold calculate_trajectory_point
  rw [if_pos h]

/-- Witness for C2 at `radius = 0`, `v0 = 2`, `t = 3`, `gravity = 9.81`. -/
theorem trajectory_point_no_drag_closed_form_witness :
    calculate_trajectory_point 0 0 2 0 3 1 0 9.81 1.225 0 0 =
      (0 + 2 * Real.cos 0 * 3,
       0 - 2 * Real.sin 0 * 3 + 0.5 * 9.81 * 3 ^ 2,
       2 * Real.cos 0,
       -2 * Real.sin 0 + 9.81 * 3) :=
  trajectory_point_no_drag_closed_form 0 0 2 0 3 1 0 9.81 1.225 0 0 rfl

/-- C3 counterexample: `step_euler` does not agree with the semi-implicit
update the claim describes.  With `mass = 1`, `g = 1`, `dt = 1`, no wind and
the state at rest, `step_euler` leaves `y = 0` (old velocity) while the
semi-implicit step would give `y = -1` (new velocity). -/
theorem step_euler_not_semi_implicit_cex :
    step_euler ⟨0, 0, 1, 1, 1, 1, 1, 0, 0, 1, false, false⟩ ⟨0, 0, 0, 0⟩ ≠
      step_euler_semi_implicit_spec ⟨0, 0, 1, 1, 1, 1, 1, 0, 0, 1, false, false⟩
        ⟨0, 0, 0, 0⟩ := by
  have ha : acceleration ⟨0, 0, 1, 1, 1, 1, 1, 0, 0, 1, false, false⟩ 0 0 = (0, -1) := by
    unfold acceleration
    norm_num
  have h1 : step_euler ⟨0, 0, 1, 1, 1, 1, 1, 0, 0, 1, false, false⟩ ⟨0, 0, 0, 0⟩ =
      ⟨0, 0, 0, -1⟩ := by
    unfold step_euler
    rw [ha]
    simp [State.mk.injEq]
  have h2 : step_euler_semi_implicit_spec ⟨0, 0, 1, 1, 1, 1, 1, 0, 0, 1, false, false⟩
      ⟨0, 0, 0, 0⟩ = ⟨0, -1, 0, -1⟩ := by
    unfold step_euler_semi_implicit_spec
    rw [ha]
    simp [State.mk.injEq]
  rw [h1, h2]
  intro h
  have hy := congrArg State.y h
  norm_num at hy

/-- C3 amended: `step_euler` is an explicit Euler step — the acceleration is
computed from the current velocity, the position is advanced first with the
**old** velocity (`x' = x + v·dt`), and the velocity is then advanced
(`v' = v + a·dt`); it is not the velocity-first semi-implicit scheme. -/
theorem step_euler_explicit_order (p : Params) (s : State) :
    step_euler p s =
      { x := s.x + s.vx * p.dt
        y := s.y + s.vy * p.dt
        vx := s.vx + (acceleration p s.vx s.vy).1 * p.dt
        vy := s.vy + (acceleration p s.vx s.vy).2 * p.dt } := rfl

/-- C5: one `step_rk4` step evaluates `deriv` (the derivative function
`f(x,y,vx,vy) = (vx, vy, ax, ay)`) four times — `k1` at the current state,
`k2` at the state advanced by `dt/2` along `k1`, `k3` at the state advanced
by `dt/2` along `k2`, `k4` at the state advanced by `dt` along `k3` — and
advances position and velocity together by `dt·(k1 + 2k2 + 2k3 + k4)/6`,
with the same `dt = p.dt` in all four evaluations. -/
theorem step_rk4_weighted_average (p : Params) (s : State) :
    step_rk4 p s =
      (let k1 := deriv p s.x s.y s.vx s.vy
       let k2 := deriv p (s.x + p.dt / 2 * k1.1) (s.y + p.dt / 2 * k1.2.1)
         (s.vx + p.dt / 2 * k1.2.2.1) (s.vy + p.dt / 2 * k1.2.2.2)
       let k3 := deriv p (s.x + p.dt / 2 * k2.1) (s.y + p.dt / 2 * k2.2.1)
         (s.vx + p.dt / 2 * k2.2.2.1) (s.vy + p.dt / 2 * k2.2.2.2)
       let k4 := deriv p (s.x + p.dt * k3.1) (s.y + p.dt * k3.2.1)
         (s.vx + p.dt * k3.2.2.1) (s.vy + p.dt * k3.2.2.2)
       { x := s.x + p.dt * (k1.1 + 2 * k2.1 + 2 * k3.1 + k4.1) / 6
         y := s.y + p.dt * (k1.2.1 + 2 * k2.2.1 + 2 * k3.2.1 + k4.2.1) / 6
         vx := s.vx + p.dt * (k1.2.2.1 + 2 * k2.2.2.1 + 2 * k3.2.2.1 + k4.2.2.1) / 6
         vy := s.vy + p.dt * (k1.2.2.2 + 2 * k2.2.2.2 + 2 * k3.2.2.2 + k4.2.2.2) / 6 }) := by
  have h : ∀ z : ℝ, 0.5 * p.dt * z = p.dt / 2 * z := fun z => by ring
  unfold step_rk4
  simp only [h]

/-- C4 counterexample: the drag integration of `calculate_trajectory_point`
is not the explicit per-axis update the claim describes.  With
`x0 = y0 = v0 = 0`, `angle = 0`, `t = 0.01` (one internal step), `mass = 1`,
`radius = 1`, `gravity = 1`, `air_density = 0` and no wind, the code gives
`y = 0.0001` (position advanced with the updated velocity `vy' = 0.01`),
while the explicit update the claim describes gives `y = 0`. -/
theorem trajectory_point_not_explicit_cex :
    calculate_trajectory_point 0 0 0 0 0.01 1 1 1 0 0 0 ≠
      calculate_trajectory_point_explicit_spec 0 0 0 0 0.01 1 1 1 0 0 0 := by
  have hceil : Nat.ceil ((0.01 : ℝ) / 0.01) = 1 := by norm_num
  have hdc : 0.5 * (0 : ℝ) * DRAG_COEFFICIENT * (Real.pi * 1 ^ 2) = 0 := by ring
  have hwx : (0 : ℝ) * Real.cos (0 * (Real.pi / 180)) = 0 := by ring
  have hwy : -(0 : ℝ) * Real.sin (0 * (Real.pi / 180)) = 0 := by ring
  have hvx : (0 : ℝ) * Real.cos 0 = 0 := by ring
  have hvy : -(0 : ℝ) * Real.sin 0 = 0 := by ring
  have hbody : trajLoopBody 0 1 1 0 0 0.01 ⟨0, 0, 0, 0⟩ =
      (⟨0, 0.0001, 0, 0.01⟩, false) := by
    unfold trajLoopBody dragAccel max_speed max_accel
    norm_num [min_def, max_def, Real.sqrt_zero, TrajState.mk.injEq, Prod.mk.injEq]
  have hloop : trajLoop 0 1 1 0 0 0.01 1 ⟨0, 0, 0, 0⟩ = ⟨0, 0.0001, 0, 0.01⟩ := by
    show trajLoop 0 1 1 0 0 0.01 (0 + 1) ⟨0, 0, 0, 0⟩ = ⟨0, 0.0001, 0, 0.01⟩
    rw [trajLoop, hbody]
    simp [trajLoop]
  have hbodyE : trajLoopBodyExplicitSpec 0 1 1 0 0 0.01 ⟨0, 0, 0, 0⟩ =
      (⟨0, 0, 0, 0.01⟩, false) := by
    unfold trajLoopBodyExplicitSpec dragAccel max_speed max_accel
    norm_num [min_def, max_def, Real.sqrt_zero, TrajState.mk.injEq, Prod.mk.injEq]
  have hloopE : trajLoopExplicitSpec 0 1 1 0 0 0.01 1 ⟨0, 0, 0, 0⟩ = ⟨0, 0, 0, 0.01⟩ := by
    show trajLoopExplicitSpec 0 1 1 0 0 0.01 (0 + 1) ⟨0, 0, 0, 0⟩ = ⟨0, 0, 0, 0.01⟩
    rw [trajLoopExplicitSpec, hbodyE]
    simp [trajLoopExplicitSpec]
  have hL : calculate_trajectory_point 0 0 0 0 0.01 1 1 1 0 0 0 = (0, 0.0001, 0, 0.01) := by
    simp only [calculate_trajectory_point]
    rw [if_neg (by norm_num : ¬(1 : ℝ) = 0), hdc, hwx, hwy, hvx, hvy, hceil, hloop]
  have hR : calculate_trajectory_point_explicit_spec 0 0 0 0 0.01 1 1 1 0 0 0 =
      (0, 0, 0, 0.01) := by
    simp only [calculate_trajectory_point_explicit_spec]
    rw [if_neg (by norm_num : ¬(1 : ℝ) = 0), hdc, hwx, hwy, hvx, hvy, hceil, hloopE]
  rw [hL, hR]
  intro h
  have hy := congrArg (fun q : ℝ × ℝ × ℝ × ℝ => q.2.1) h
  norm_num at hy

/-- C4 amended: with `radius ≠ 0`, `calculate_trajectory_point` integrates
from `t = 0` with the fixed internal step `dt = 0.01` (`⌈t/0.01⌉` iterations
of the loop body), and each non-aborting internal step is a **semi-implicit**
per-axis update: the (clamped) velocity is advanced first by the drag and
gravity accelerations, and the position is then advanced using the **new**
velocity. -/
theorem trajectory_point_semi_implicit_step :
    (∀ drag_constant mass gravity vx_wind vy_wind dt : ℝ, ∀ s : TrajState,
      (max (-max_speed) (min max_speed s.vx) - vx_wind) ^ 2 +
          (max (-max_speed) (min max_speed s.vy) - vy_wind) ^ 2 ≤ max_speed ^ 2 →
      trajLoopBody drag_constant mass gravity vx_wind vy_wind dt s =
        (⟨s.x + (max (-max_speed) (min max_speed s.vx) +
              (dragAccel drag_constant mass
                (max (-max_speed) (min max_speed s.vx) - vx_wind)
                (max (-max_speed) (min max_speed s.vy) - vy_wind)).1 * dt) * dt,
          s.y + (max (-max_speed) (min max_speed s.vy) +
              (gravity + (dragAccel drag_constant mass
                (max (-max_speed) (min max_speed s.vx) - vx_wind)
                (max (-max_speed) (min max_speed s.vy) - vy_wind)).2) * dt) * dt,
          max (-max_speed) (min max_speed s.vx) +
            (dragAccel drag_constant mass
              (max (-max_speed) (min max_speed s.vx) - vx_wind)
              (max (-max_speed) (min max_speed s.vy) - vy_wind)).1 * dt,
          max (-max_speed) (min max_speed s.vy) +
            (gravity + (dragAccel drag_constant mass
              (max (-max_speed) (min max_speed s.vx) - vx_wind)
              (max (-max_speed) (min max_speed s.vy) - vy_wind)).2) * dt⟩, false)) ∧
    (∀ x0 y0 v0 angle t mass radius gravity air_density wind_speed wind_direction : ℝ,
      radius ≠ 0 →
      calculate_trajectory_point x0 y0 v0 angle t mass radius gravity air_density
        wind_speed wind_direction =
        (let s := trajLoop
            (0.5 * air_density * DRAG_COEFFICIENT * (Real.pi * radius ^ 2))
            mass gravity
            (wind_speed * Real.cos (wind_direction * (Real.pi / 180)))
            (-wind_speed * Real.sin (wind_direction * (Real.pi / 180)))
            0.01 (Nat.ceil (t / 0.01))
            ⟨x0, y0, v0 * Real.cos angle, -v0 * Real.sin angle⟩
         (s.x, s.y, s.vx, s.vy))) := by
  constructor
  · intro drag_constant mass gravity vx_wind vy_wind dt s h
    simp only [trajLoopBody]
    rw [if_neg (not_lt.mpr h)]
  · intro x0 y0 v0 angle t mass radius gravity air_density wind_speed wind_direction h
    simp only [calculate_trajectory_point]
    rw [if_neg h]

/-- C6: the stability guard of the drag-integration loop.  (1) The drag
acceleration components returned by `dragAccel` always have magnitude at most
`max_accel = 1000 m/s²`.  (2) Whenever the loop body proceeds to compute drag
(no `break`), the relative speed it uses is at most `max_speed = 10000 m/s`.
(3) When the `break` fires, `trajLoop` performs no further iterations and
returns that iteration's state.  (4) In particular a velocity of magnitude
50,000 m/s (no wind) does not abort: it is clamped and drag is computed, its
components bounded by (1).  Real arithmetic is total, so no non-finite value
can arise in the embedding. -/
theorem drag_stability_guard :
    (∀ drag_constant mass vx_rel vy_rel : ℝ,
      |(dragAccel drag_constant mass vx_rel vy_rel).1| ≤ max_accel ∧
      |(dragAccel drag_constant mass vx_rel vy_rel).2| ≤ max_accel) ∧
    (∀ drag_constant mass gravity vx_wind vy_wind dt : ℝ, ∀ s : TrajState,
      (trajLoopBody drag_constant mass gravity vx_wind vy_wind dt s).2 = false →
      Real.sqrt ((max (-max_speed) (min max_speed s.vx) - vx_wind) ^ 2 +
        (max (-max_speed) (min max_speed s.vy) - vy_wind) ^ 2) ≤ max_speed) ∧
    (∀ drag_constant mass gravity vx_wind vy_wind dt : ℝ, ∀ s : TrajState, ∀ n : ℕ,
      (trajLoopBody drag_constant mass gravity vx_wind vy_wind dt s).2 = true →
      trajLoop drag_constant mass gravity vx_wind vy_wind dt (n + 1) s =
        (trajLoopBody drag_constant mass gravity vx_wind vy_wind dt s).1) ∧
    (∀ drag_constant mass gravity dt : ℝ,
      (trajLoopBody drag_constant mass gravity 0 0 dt ⟨0, 0, 50000, 0⟩).2 = false) := by
  have hclamp : ∀ z : ℝ, |max (-max_accel) (min max_accel z)| ≤ max_accel := by
    intro z
    rw [abs_le]
    exact ⟨le_max_left _ _, max_le (by norm_num [max_accel]) (min_le_left _ _)⟩
  refine ⟨?_, ?_, ?_, ?_⟩
  · intro drag_constant mass vx_rel vy_rel
    simp only [dragAccel]
    split_ifs with h
    · exact ⟨hclamp _, hclamp _⟩
    · norm_num [max_accel]
  · intro drag_constant mass gravity vx_wind vy_wind dt s h
    simp only [trajLoopBody] at h
    split_ifs at h with hc
    have h1 : Real.sqrt ((max (-max_speed) (min max_speed s.vx) - vx_wind) ^ 2 +
        (max (-max_speed) (min max_speed s.vy) - vy_wind) ^ 2) ≤
        Real.sqrt (max_speed ^ 2) := Real.sqrt_le_sqrt (not_lt.mp hc)
    rwa [Real.sqrt_sq (by norm_num [max_speed] : (0 : ℝ) ≤ max_speed)] at h1
  · intro drag_constant mass gravity vx_wind vy_wind dt s n h
    simp [trajLoop, h]
  · intro drag_constant mass gravity dt
    simp only [trajLoopBody]
    rw [if_neg]
    rw [not_lt]
    have h1 : max (-max_speed) (min max_speed (50000 : ℝ)) = max_speed := by
      norm_num [max_speed, min_def, max_def]
    have h2 : max (-max_speed) (min max_speed (0 : ℝ)) = 0 := by
      norm_num [max_speed, min_def, max_def]
    rw [h1, h2]
    norm_num

/-- C7: `calculate_flight_time` solves the quadratic via the discriminant
`b² + 2·g·y0` with `b = v0·sin(angle)` (the code stores `-v0·sin(angle)`,
whose square is the same), returns 0 when the discriminant is negative, and
at the boundary case `v0 = 1`, `angle = 0`, `y0 = 0` (g = 9.81) the
discriminant is exactly 0 and the returned flight time is 0 — the positive
branch, not a negative-discriminant rejection. -/
theorem flight_time_discriminant :
    (∀ v0 angle y0 : ℝ,
      calculate_flight_time v0 angle y0 =
        if v0 * Real.sin angle * (v0 * Real.sin angle) + 2 * GRAVITY * y0 < 0 then 0
        else (v0 * Real.sin angle +
          Real.sqrt (v0 * Real.sin angle * (v0 * Real.sin angle) + 2 * GRAVITY * y0)) /
            GRAVITY) ∧
    ((1 : ℝ) * Real.sin 0 * ((1 : ℝ) * Real.sin 0) + 2 * GRAVITY * 0 = 0 ∧
      calculate_flight_time 1 0 0 = 0) := by
  constructor
  · intro v0 angle y0
    simp only [calculate_flight_time]
    have h1 : -v0 * Real.sin angle * (-v0 * Real.sin angle) =
        v0 * Real.sin angle * (v0 * Real.sin angle) := by ring
    have h2 : -(-v0 * Real.sin angle) = v0 * Real.sin angle := by ring
    rw [h1, h2]
  · constructor
    · simp [Real.sin_zero]
    · simp only [calculate_flight_time]
      norm_num [Real.sin_zero, Real.sqrt_zero]

/-- Helper: the value of `calculate_max_height` in the concrete scenario
`v0 = 40`, `angle = 45° = π/4`, `y0 = 0`. -/
lemma max_height_scenario_eval :
    calculate_max_height 40 (Real.pi / 4) 0 = -(800 / 19.62) := by
  simp only [calculate_max_height]
  rw [Real.sin_pi_div_four]
  have h : (40 : ℝ) * (Real.sqrt 2 / 2) * (40 * (Real.sqrt 2 / 2)) =
      400 * (Real.sqrt 2 * Real.sqrt 2) := by ring
  rw [h, Real.mul_self_sqrt (by norm_num : (0 : ℝ) ≤ 2)]
  norm_num [GRAVITY]

/-- Helper: the value of `calculate_flight_time` in the concrete scenario
`v0 = 40`, `angle = 45° = π/4`, `y0 = 0`. -/
lemma flight_time_scenario_eval :
    calculate_flight_time 40 (Real.pi / 4) 0 = 40 * Real.sqrt 2 / 9.81 := by
  simp only [calculate_flight_time]
  rw [Real.sin_pi_div_four]
  have hd : -40 * (Real.sqrt 2 / 2) * (-40 * (Real.sqrt 2 / 2)) + 2 * GRAVITY * 0 =
      800 := by
    have h : (-40 : ℝ) * (Real.sqrt 2 / 2) * (-40 * (Real.sqrt 2 / 2)) =
        400 * (Real.sqrt 2 * Real.sqrt 2) := by ring
    rw [h, Real.mul_self_sqrt (by norm_num : (0 : ℝ) ≤ 2)]
    norm_num
  rw [hd, if_neg (by norm_num : ¬(800 : ℝ) < 0)]
  have h800 : Real.sqrt 800 = 20 * Real.sqrt 2 := by
    rw [show (800 : ℝ) = 20 ^ 2 * 2 by norm_num,
      Real.sqrt_mul (by positivity) 2, Real.sqrt_sq (by norm_num)]
  rw [h800]
  have h : -(-40 * (Real.sqrt 2 / 2)) + 20 * Real.sqrt 2 = 40 * Real.sqrt 2 := by ring
  rw [h]
  norm_num [GRAVITY]

/-- C8 counterexample: in the scenario `v0 = 40`, `angle = 45°`, `y0 = 0`,
`calculate_max_height` returns `-800/19.62 ≈ -40.77`, not `≈ 40.77`: it is
not within 40 of the claimed value. -/
theorem scenario_max_height_sign_cex :
    ¬ |calculate_max_height 40 (Real.pi / 4) 0 - 40.77| ≤ 40 := by
  rw [max_height_scenario_eval, abs_le]
  intro h
  have h1 := h.1
  norm_num at h1

/-- C8 amended: with `v0 = 40 m/s`, `angle = 45°` and `y0 = 0` (g = 9.81,
no drag), the auxiliary queries return range `= 1600/9.81 ≈ 163.10 m`
(`40²·sin(90°)/9.81`; the claim's figure 163.14 overshoots the formula's own
value), max height `≈ −40.77 m` (negative under the screen-down-positive-y
convention; magnitude 40.77 m), and flight time `≈ 5.77 s`. -/
theorem scenario_range_height_time :
    |calculate_range 40 (Real.pi / 4) 0 - 163.10| ≤ 0.01 ∧
    |calculate_max_height 40 (Real.pi / 4) 0 - (-40.77)| ≤ 0.01 ∧
    |calculate_flight_time 40 (Real.pi / 4) 0 - 5.77| ≤ 0.01 := by
  refine ⟨?_, ?_, ?_⟩
  · simp only [calculate_range]
    rw [show (2 : ℝ) * (Real.pi / 4) = Real.pi / 2 by ring, Real.sin_pi_div_two,
      abs_le]
    constructor <;> norm_num [GRAVITY]
  · rw [max_height_scenario_eval, abs_le]
    constructor <;> norm_num
  · rw [flight_time_scenario_eval, abs_le]
    have hlo : (1.41421 : ℝ) < Real.sqrt 2 :=
      (Real.lt_sqrt (by norm_num)).mpr (by norm_num)
    have hhi : Real.sqrt 2 < (1.41422 : ℝ) :=
      (Real.sqrt_lt' (by norm_num)).mpr (by norm_num)
    have h1 : (5.76 : ℝ) ≤ 40 * Real.sqrt 2 / 9.81 := by
      rw [le_div_iff (by norm_num : (0 : ℝ) < 9.81)]
      nlinarith
    have h2 : 40 * Real.sqrt 2 / 9.81 ≤ (5.78 : ℝ) := by
      rw [div_le_iff (by norm_num : (0 : ℝ) < 9.81)]
      nlinarith
    constructor
    · linarith
    · linarith

/-- C9: once a projectile is flagged inactive — whatever the cause: ground
plane, simulation bounds, or a non-finite computed state — every subsequent
`update` call leaves its position, velocity, time and trajectory unchanged
(the call returns the projectile untouched); and when the computed state
fails the finiteness check (the `bad` oracle), the projectile is marked
inactive in that same call, its position, velocity and trajectory left as
they were. -/
theorem inactive_no_update :
    (∀ (bad : ℝ → Bool) (p : Projectile) (dt gravity air_density wind_speed wind_direction : ℝ),
      p.active = false →
      p.update bad dt gravity air_density wind_speed wind_direction = p) ∧
    (∀ (bad : ℝ → Bool) (p : Projectile) (dt gravity air_density wind_speed wind_direction : ℝ),
      p.active = true → p.launched = true → p.paused = false →
      (bad (calculate_trajectory_point p.x0 p.y0 p.v0 p.angle (p.time + dt)
          p.mass p.radius gravity air_density wind_speed wind_direction).1 = true ∨
        bad (calculate_trajectory_point p.x0 p.y0 p.v0 p.angle (p.time + dt)
          p.mass p.radius gravity air_density wind_speed wind_direction).2.1 = true) →
      (p.update bad dt gravity air_density wind_speed wind_direction).active = false ∧
      (p.update bad dt gravity air_density wind_speed wind_direction).x = p.x ∧
      (p.update bad dt gravity air_density wind_speed wind_direction).y = p.y ∧
      (p.update bad dt gravity air_density wind_speed wind_direction).vx = p.vx ∧
      (p.update bad dt gravity air_density wind_speed wind_direction).vy = p.vy ∧
      (p.update bad dt gravity air_density wind_speed wind_direction).trajectory =
        p.trajectory) := by
  constructor
  · intro bad p dt gravity air_density wind_speed wind_direction h
    unfold Projectile.update
    rw [if_pos (Or.inl h)]
  · intro bad p dt gravity air_density wind_speed wind_direction ha hl hp hbad
    simp only [Projectile.update]
    rw [if_neg (by simp [ha, hl, hp]), if_pos hbad]
    exact ⟨rfl, rfl, rfl, rfl, rfl, rfl⟩

/-- C10 (implicit): for a launched, active, non-paused projectile whose
computed trajectory point passes the finiteness check, the kinematic state
after one `update` call depends only on the launch parameters
`(x0, y0, v0, angle, mass, radius)`, the accumulated time, and the
environment arguments — not on the current `x, y, vx, vy` fields: two
projectiles agreeing on those inputs but differing in current
position/velocity hold identical `x, y, vx, vy, time, active` after
`update`, because the trajectory is recomputed from the launch conditions. -/
theorem update_independent_of_current_state
    (bad : ℝ → Bool) (p q : Projectile)
    (dt gravity air_density wind_speed wind_direction : ℝ)
    (hx0 : p.x0 = q.x0) (hy0 : p.y0 = q.y0) (hv0 : p.v0 = q.v0)
    (hang : p.angle = q.angle) (hmass : p.mass = q.mass) (hrad : p.radius = q.radius)
    (htime : p.time = q.time)
    (hpa : p.active = true) (hqa : q.active = true)
    (hpl : p.launched = true) (hql : q.launched = true)
    (hpp : p.paused = false) (hqp : q.paused = false)
    (hbx : bad (calculate_trajectory_point p.x0 p.y0 p.v0 p.angle (p.time + dt)
        p.mass p.radius gravity air_density wind_speed wind_direction).1 = false)
    (hby : bad (calculate_trajectory_point p.x0 p.y0 p.v0 p.angle (p.time + dt)
        p.mass p.radius gravity air_density wind_speed wind_direction).2.1 = false) :
    (p.update bad dt gravity air_density wind_speed wind_direction).x =
      (q.update bad dt gravity air_density wind_speed wind_direction).x ∧
    (p.update bad dt gravity air_density wind_speed wind_direction).y =
      (q.update bad dt gravity air_density wind_speed wind_direction).y ∧
    (p.update bad dt gravity air_density wind_speed wind_direction).vx =
      (q.update bad dt gravity air_density wind_speed wind_direction).vx ∧
    (p.update bad dt gravity air_density wind_speed wind_direction).vy =
      (q.update bad dt gravity air_density wind_speed wind_direction).vy ∧
    (p.update bad dt gravity air_density wind_speed wind_direction).time =
      (q.update bad dt gravity air_density wind_speed wind_direction).time ∧
    (p.update bad dt gravity air_density wind_speed wind_direction).active =
      (q.update bad dt gravity air_density wind_speed wind_direction).active := by
  have hgp : ¬(p.active = false ∨ p.launched = false ∨ p.paused = true) := by
    rw [hpa, hpl, hpp]
    simp
  have hgq : ¬(q.active = false ∨ q.launched = false ∨ q.paused = true) := by
    rw [hqa, hql, hqp]
    simp
  have hcond : ¬(bad (calculate_trajectory_point p.x0 p.y0 p.v0 p.angle (p.time + dt)
      p.mass p.radius gravity air_density wind_speed wind_direction).1 = true ∨
      bad (calculate_trajectory_point p.x0 p.y0 p.v0 p.angle (p.time + dt)
      p.mass p.radius gravity air_density wind_speed wind_direction).2.1 = true) := by
    rw [hbx, hby]
    simp
  simp only [Projectile.update]
  rw [if_neg hgp, if_neg hgq]
  rw [← hx0, ← hy0, ← hv0, ← hang, ← hmass, ← hrad, ← htime]
  rw [if_neg hcond, if_neg hcond]
  split_ifs with h1 h2 <;>
    first
      | exact ⟨rfl, rfl, rfl, rfl, rfl, rfl⟩
      | exact ⟨rfl, rfl, rfl, rfl, rfl, hpa.trans hqa.symm⟩
      | exact absurd h1 h2
      | exact absurd h2 h1

/-- Witness for C10: two projectiles sharing launch parameters and time but
holding different current positions and velocities. -/
theorem update_independent_of_current_state_witness :
    (Projectile.update (fun v => false)
        ⟨0, 0, 0, 0, 1, 0, 1, 2, 3, 4, 0, [], true, true, false⟩ 1 9.81 1.225 0 0).x =
      (Projectile.update (fun v => false)
        ⟨0, 0, 0, 0, 1, 0, 5, 6, 7, 8, 0, [], true, true, false⟩ 1 9.81 1.225 0 0).x ∧
    (Projectile.update (fun v => false)
        ⟨0, 0, 0, 0, 1, 0, 1, 2, 3, 4, 0, [], true, true, false⟩ 1 9.81 1.225 0 0).y =
      (Projectile.update (fun v => false)
        ⟨0, 0, 0, 0, 1, 0, 5, 6, 7, 8, 0, [], true, true, false⟩ 1 9.81 1.225 0 0).y ∧
    (Projectile.update (fun v => false)
        ⟨0, 0, 0, 0, 1, 0, 1, 2, 3, 4, 0, [], true, true, false⟩ 1 9.81 1.225 0 0).vx =
      (Projectile.update (fun v => false)
        ⟨0, 0, 0, 0, 1, 0, 5, 6, 7, 8, 0, [], true, true, false⟩ 1 9.81 1.225 0 0).vx ∧
    (Projectile.update (fun v => false)
        ⟨0, 0, 0, 0, 1, 0, 1, 2, 3, 4, 0, [], true, true, false⟩ 1 9.81 1.225 0 0).vy =
      (Projectile.update (fun v => false)
        ⟨0, 0, 0, 0, 1, 0, 5, 6, 7, 8, 0, [], true, true, false⟩ 1 9.81 1.225 0 0).vy ∧
    (Projectile.update (fun v => false)
        ⟨0, 0, 0, 0, 1, 0, 1, 2, 3, 4, 0, [], true, true, false⟩ 1 9.81 1.225 0 0).time =
      (Projectile.update (fun v => false)
        ⟨0, 0, 0, 0, 1, 0, 5, 6, 7, 8, 0, [], true, true, false⟩ 1 9.81 1.225 0 0).time ∧
    (Projectile.update (fun v => false)
        ⟨0, 0, 0, 0, 1, 0, 1, 2, 3, 4, 0, [], true, true, false⟩ 1 9.81 1.225 0 0).active =
      (Projectile.update (fun v => false)
        ⟨0, 0, 0, 0, 1, 0, 5, 6, 7, 8, 0, [], true, true, false⟩ 1 9.81 1.225 0 0).active :=
  update_independent_of_current_state (fun v => false)
    ⟨0, 0, 0, 0, 1, 0, 1, 2, 3, 4, 0, [], true, true, false⟩
    ⟨0, 0, 0, 0, 1, 0, 5, 6, 7, 8, 0, [], true, true, false⟩ 1 9.81 1.225 0 0
    rfl rfl rfl rfl rfl rfl rfl rfl rfl rfl rfl rfl rfl rfl rfl

end BallisticSim
